import Mathlib

/-!
Verification of the cache/refresh and historical-series logic of the
`CurrencyConverter` class in `src/main.py`.

Modelling choices (shallow embedding):
* A JSON rate table (`data["rates"]`) is a partial map `String → Option ℚ`;
  Python floats are modelled as rationals (all the arithmetic the claims
  touch is exact in both).
* `time.time()` and "today" (`datetime.now().strftime("%Y-%m-%d")`) are
  supplied by an `Env`: `now : ℚ` (epoch seconds) and `today : ℤ` (calendar
  days number; `today - i` is the date `i` days before today, matching the
  `datetime - timedelta(days=i)` arithmetic; chronological order of the
  `"%Y-%m-%d"` strings is the order on these integers).
* The network call `requests.get(...)` is the environment function
  `fetch : String → Except Unit RateMap`; an `.error` covers transport
  failure, non-2xx status and a malformed body (all collapse into the
  `except Exception` branch of `get_exchange_rate`).
* The persisted cache file `exchange_rates.json` is a `CacheFile`:
  `absent` (os.path.exists is false), `unreadable` (the file exists but
  `open` raises OSError — note `open` sits OUTSIDE the `try` in
  `get_exchange_rate`, and the `except` clauses never catch OSError),
  `corrupt` (opens, but `json.load` raises `JSONDecodeError`), or
  `wellFormed` (a JSON object of `{timestamp, rates}` entries).
* One historical snapshot file `{base}_{date}.json` per (base, date):
  `hist : String → ℤ → Option HistFile`; `HistFile.corrupt` stands for a
  file whose read raises inside `get_historical_rates`'s `try` (undecodable
  JSON, unreadable file, or a missing `"rates"` key — all abort the loop),
  `HistFile.good` for a well-formed `{timestamp, rates}` file (the
  timestamp field is never read back, so it is not modelled).
* Exceptions are an `Except ConvError` result. `ConvError.fetchError` is
  the `"Error fetching exchange rates"` exception, `.unknownCurrency` the
  `"Currency 'X' not found"` exception (both re-wrapped by
  `convert_currency` into `"Conversion error"` — wrapping does not change
  the constructor), `.ioError` an OSError that escapes uncaught.
-/

/-- A rate table: currency code ↦ rate (1 unit of base = rate units of target). -/
abbrev RateMap : Type := String → Option ℚ

/-- One entry of the persisted cache file: `{"timestamp": ..., "rates": {...}}`. -/
structure CacheEntry where
  timestamp : ℚ
  rates : RateMap

/-- State of the persisted cache file `exchange_rates.json`. -/
inductive CacheFile where
  /-- `os.path.exists(self.cache_file)` is false. -/
  | absent
  /-- the file exists but `open` raises OSError (never caught by the code). -/
  | unreadable
  /-- the file opens but `json.load` raises `JSONDecodeError`. -/
  | corrupt
  /-- a well-formed JSON object: base currency ↦ cache entry. -/
  | wellFormed (entries : String → Option CacheEntry)

/-- State of one historical snapshot file `{base}_{date}.json`. -/
inductive HistFile where
  /-- reading the file raises inside `get_historical_rates`'s `try`
  (undecodable JSON, unreadable file, or missing `"rates"` key). -/
  | corrupt
  /-- a well-formed `{"timestamp": ..., "rates": {...}}` file. -/
  | good (rates : RateMap)

/-- The on-disk state a `CurrencyConverter` instance reads and writes. -/
structure ConvState where
  cacheFile : CacheFile
  hist : String → ℤ → Option HistFile

/-- The ambient environment of one call: the clock, today's date, and the
upstream provider's response per base currency. -/
structure Env where
  now : ℚ
  today : ℤ
  fetch : String → Except Unit RateMap

/-- The exceptions the embedded methods can raise. -/
inductive ConvError where
  /-- an OSError from `open` that no `except` clause catches. -/
  | ioError
  /-- `"Error fetching exchange rates: ..."` raised by `get_exchange_rate`. -/
  | fetchError
  /-- `"Currency '{target}' not found"` raised by `convert_currency`. -/
  | unknownCurrency (target : String)

/-- `self.cache_timeout = 3600` (seconds). -/
def cache_timeout : ℚ := 3600

/-- `CurrencyConverter._cache_rates` (src/main.py lines 109–129): read the
whole cache file (an undecodable file — `json.JSONDecodeError` — starts
from an empty dict; a missing file too), upsert the entry for
`base_currency` with the current timestamp, write the whole mapping back.
Here `open` sits inside the `try` but the `except` only catches
`JSONDecodeError`, so an OSError on an unreadable file propagates. -/
def cache_rates (env : Env) (s : ConvState) (base : String) (rates : RateMap) :
    Except ConvError ConvState :=
  match s.cacheFile with
  | .unreadable => .error .ioError
  | .wellFormed m =>
      .ok { s with
            cacheFile := .wellFormed fun b =>
              if b = base then some ⟨env.now, rates⟩ else m b }
  | .absent =>
      .ok { s with
            cacheFile := .wellFormed fun b =>
              if b = base then some ⟨env.now, rates⟩ else none }
  | .corrupt =>
      .ok { s with
            cacheFile := .wellFormed fun b =>
              if b = base then some ⟨env.now, rates⟩ else none }

/-- `CurrencyConverter._store_historical` (src/main.py lines 131–144): if the
snapshot file `{base}_{today}.json` already exists, return without writing
("Don't duplicate entries for same day"); otherwise write the given table. -/
def store_historical (env : Env) (s : ConvState) (base : String) (rates : RateMap) :
    ConvState :=
  match s.hist base env.today with
  | some _ => s
  | none => { s with hist := fun b d =>
      if b = base ∧ d = env.today then some (.good rates) else s.hist b d }

/-- The fetch branch of `CurrencyConverter.get_exchange_rate`
(src/main.py lines 92–107): call the provider, cache the result, store the
historical snapshot, return the rates. Any exception inside this `try`
(network failure, a missing `"rates"` field, an OSError from
`_cache_rates`) is re-raised as `"Error fetching exchange rates: ..."`. -/
def fetch_and_store (env : Env) (s : ConvState) (base : String) :
    Except ConvError (RateMap × ConvState) :=
  match env.fetch base with
  | .error _ => .error .fetchError
  | .ok rates =>
      match cache_rates env s base rates with
      | .error _ => .error .fetchError
      | .ok s1 => .ok (rates, store_historical env s1 base rates)

/-- `CurrencyConverter.get_exchange_rate` (src/main.py lines 70–107): if the
cache file exists, read it (`open` is outside the `try`: an unreadable file
raises uncaught; an undecodable file is caught — `pass` — and falls through
to the fetch); return the cached table when the entry for `base_currency`
is present and `time.time() - entry["timestamp"] < cache_timeout`;
otherwise fetch, cache, snapshot, and return the fetched table. -/
def get_exchange_rate (env : Env) (s : ConvState) (base : String) :
    Except ConvError (RateMap × ConvState) :=
  match s.cacheFile with
  | .unreadable => .error .ioError
  | .wellFormed m =>
      match m base with
      | some e =>
          if env.now - e.timestamp < cache_timeout then .ok (e.rates, s)
          else fetch_and_store env s base
      | none => fetch_and_store env s base
  | .absent => fetch_and_store env s base
  | .corrupt => fetch_and_store env s base

/-- `CurrencyConverter.convert_currency` (src/main.py lines 146–165): get the
rates for the base currency, and if the target is in the table return
`amount * rates[target_currency]`, else raise `"Currency '...' not found"`.
The surrounding `try` re-wraps every exception into `"Conversion error:"`,
which changes the message but not which failure occurred. -/
def convert_currency (env : Env) (s : ConvState) (base target : String) (amount : ℚ) :
    Except ConvError (ℚ × ConvState) :=
  match get_exchange_rate env s base with
  | .error e => .error e
  | .ok (rates, s1) =>
      match rates target with
      | some r => .ok (amount * r, s1)
      | none => .error (.unknownCurrency target)

/-- The `for i in range(1, days)` loop of
`CurrencyConverter.get_historical_rates` (src/main.py lines 191–201),
processing day `today - i` and then `count - 1` further days: a missing
snapshot file is skipped silently; a corrupt file raises, which the outer
`except` turns into returning what was accumulated so far (so the loop
contributes nothing further); a good file contributes `(date, rate)` when
the target currency is in its table. Results are in visit order
(most recent first), exactly as the Python lists before `reversed`. -/
def histLoop (env : Env) (s : ConvState) (base target : String) :
    Nat → Nat → List ℤ × List ℚ
  | _, 0 => ([], [])
  | i, count + 1 =>
      match s.hist base (env.today - (i : ℤ)) with
      | none => histLoop env s base target (i + 1) count
      | some .corrupt => ([], [])
      | some (.good m) =>
          match m target with
          | some r =>
              let rest := histLoop env s base target (i + 1) count
              ((env.today - (i : ℤ)) :: rest.1, r :: rest.2)
          | none => histLoop env s base target (i + 1) count

/-- `CurrencyConverter.get_historical_rates` (src/main.py lines 167–207):
get today's table (any exception is caught and printed — the function never
raises and returns the lists accumulated so far); only if the target is in
today's table, append today's point and walk the previous `days - 1`
snapshot files; finally return `(list(reversed(dates)), list(reversed(rates)))`. -/
def get_historical_rates (env : Env) (s : ConvState) (base target : String)
    (days : Nat) : (List ℤ × List ℚ) × ConvState :=
  match get_exchange_rate env s base with
  | .error _ => (([], []), s)
  | .ok (current, s1) =>
      match current target with
      | none => (([], []), s1)
      | some r =>
          let rest := histLoop env s1 base target 1 (days - 1)
          (((env.today :: rest.1).reverse, (r :: rest.2).reverse), s1)

/-- The spec's `RateStore.get_cached` (§4.1): "returns the cached table for
`base` only if `now - entry.timestamp < cache_timeout`; otherwise reports
absent (does not delete the stale entry)"; a corrupted file "is treated as
an empty cache". Stated from the spec's words, to be compared with the
code's inlined cache check in `get_exchange_rate`. -/
def get_cached_spec (env : Env) (s : ConvState) (base : String) : Option RateMap :=
  match s.cacheFile with
  | .wellFormed m =>
      match m base with
      | some e => if env.now - e.timestamp < cache_timeout then some e.rates else none
      | none => none
  | _ => none

/-- The spec's `ConversionService.get_rates` (§4.3), stated from the spec's
words: "returns `RateStore.get_cached(base)` if present; else calls
`RateFetcher.fetch(base)`, then calls `RateStore.put_cached` and
`RateStore.put_snapshot_if_absent(base, today)` with the result, then
returns it. Fails with `RateUnavailable` if the fetch fails."
`put_cached` is the code's `_cache_rates` and `put_snapshot_if_absent` the
code's `_store_historical`. -/
def get_rates_spec (env : Env) (s : ConvState) (base : String) :
    Except ConvError (RateMap × ConvState) :=
  match get_cached_spec env s base with
  | some tbl => .ok (tbl, s)
  | none =>
      match env.fetch base with
      | .error _ => .error .fetchError
      | .ok tbl =>
          match cache_rates env s base tbl with
          | .error _ => .error .fetchError
          | .ok s1 => .ok (tbl, store_historical env s1 base tbl)

/-- Mock rate table `{"EUR": 0.9}` used to instantiate the series and
conversion theorems. -/
def tblMock : RateMap := fun c => if c = "EUR" then some (9 / 10) else none

/-- Environment whose provider always answers `tblMock`, at epoch 0, day 0. -/
def envMock : Env := ⟨0, 0, fun _ => .ok tblMock⟩

/-- Fresh store: no cache file, no snapshot files. -/
def sEmpty : ConvState := ⟨.absent, fun _ _ => none⟩

/-- The store after `get_exchange_rate envMock sEmpty "USD"`: the cache holds
the fetched table for `"USD"` and a snapshot exists for `("USD", day 0)`. -/
def sAfterMockFetch : ConvState :=
  ⟨.wellFormed fun b => if b = "USD" then some ⟨0, tblMock⟩ else none,
   fun b d => if b = "USD" ∧ d = 0 then some (.good tblMock) else none⟩

/-- Environment whose provider always fails, at epoch 0, day 0. -/
def envFetchFail : Env := ⟨0, 0, fun _ => .error ()⟩

/-- Store holding a good snapshot for `("USD", day -1)` whose table contains
`"EUR"`, and no cache file. -/
def sYesterdaySnap : ConvState :=
  ⟨.absent, fun b d =>
    if b = "USD" ∧ d = -1 then some (.good fun c => if c = "EUR" then some 1 else none)
    else none⟩

/-- A rate table containing only `"USD"` (no `"EUR"`). -/
def tblNoEUR : RateMap := fun c => if c = "USD" then some 1 else none

/-- Environment whose provider always answers `tblNoEUR`, at epoch 0, day 0. -/
def envNoEUR : Env := ⟨0, 0, fun _ => .ok tblNoEUR⟩

/-- Store holding a good snapshot for `("USD", day -1)` whose table contains
`"EUR"` at rate 1/2, and no cache file. -/
def sSnapWithEUR : ConvState :=
  ⟨.absent, fun b d =>
    if b = "USD" ∧ d = -1 then
      some (.good fun c => if c = "EUR" then some (1 / 2) else none)
    else none⟩

/-- The store after `get_exchange_rate envNoEUR sSnapWithEUR "USD"`: cache
entry and today's snapshot written for `"USD"`, yesterday's snapshot kept. -/
def sNoEURAfter : ConvState :=
  ⟨.wellFormed fun b => if b = "USD" then some ⟨0, tblNoEUR⟩ else none,
   fun b d => if b = "USD" ∧ d = 0 then some (.good tblNoEUR)
              else sSnapWithEUR.hist b d⟩

/-- Store whose persisted cache file exists but cannot be opened. -/
def sUnreadable : ConvState := ⟨.unreadable, fun _ _ => none⟩

/-- A well-formed cache mapping with entries for `"USD"` (fresh at epoch 0)
and `"EUR"`. -/
def mTwo : String → Option CacheEntry :=
  fun b => if b = "USD" then some ⟨0, tblMock⟩
           else if b = "EUR" then some ⟨1, tblNoEUR⟩ else none

/-- Store whose cache file is the well-formed mapping `mTwo`. -/
def sTwo : ConvState := ⟨.wellFormed mTwo, fun _ _ => none⟩

/-- Shared facts about the snapshot-walking loop, by induction on the number
of remaining days: the two accumulated lists have equal length, at most
`count` points are produced, every produced date is at most `today - i`,
and the dates are strictly decreasing (visit order is most recent first). -/
theorem histLoop_props (env : Env) (s : ConvState) (base target : String) :
    ∀ count i,
      (histLoop env s base target i count).1.length ≤ count ∧
      (histLoop env s base target i count).2.length =
        (histLoop env s base target i count).1.length ∧
      (∀ x ∈ (histLoop env s base target i count).1, x ≤ env.today - (i : ℤ)) ∧
      List.Chain' (fun a b : ℤ => b < a) (histLoop env s base target i count).1 := by
  intro count
  induction count with
  | zero => intro i; simp [histLoop]
  | succ n ih =>
      intro i
      obtain ⟨h1, h2, h3, h4⟩ := ih (i + 1)
      have hmem : ∀ x ∈ (histLoop env s base target (i + 1) n).1,
          x ≤ env.today - (i : ℤ) := by
        intro x hx
        have hx2 := h3 x hx
        push_cast at hx2 ⊢
        omega
      simp only [histLoop]
      split
      · exact ⟨h1.trans (Nat.le_succ n), h2, hmem, h4⟩
      · simp
      · split
        · refine ⟨?_, ?_, ?_, ?_⟩
          · simp only [List.length_cons]
            omega
          · simp [h2]
          · intro x hx
            rcases List.mem_cons.mp hx with hx | hx
            · omega
            · exact hmem x hx
          · refine List.chain'_cons'.mpr ⟨?_, h4⟩
            intro y hy
            have hy2 := h3 y (List.mem_of_mem_head? hy)
            push_cast at hy2
            omega
        · exact ⟨h1.trans (Nat.le_succ n), h2, hmem, h4⟩

/-- Claim C9: for every base, target and days, the two sequences returned by
`get_historical_rates` (the list of dates and the list of rates) have equal
length, whatever the state of the store and whether or not the live fetch
succeeds. -/
theorem series_lists_length_eq (env : Env) (s : ConvState) (base target : String)
    (days : Nat) :
    (get_historical_rates env s base target days).1.1.length =
      (get_historical_rates env s base target days).1.2.length := by
  rcases hg : get_exchange_rate env s base with e | ⟨current, s1⟩
  · simp [get_historical_rates, hg]
  · rcases hc : current target with _ | r
    · simp [get_historical_rates, hg, hc]
    · simp [get_historical_rates, hg, hc,
        (histLoop_props env s1 base target (days - 1) 1).2.1]

/-- Counterexample to claim C3 as stated: with the provider down, the series
returned for `days = 7` is empty — its length is 0, not between 1 and 7 —
even though a prior-day snapshot for the pair exists in the store. -/
theorem series_length_zero_cex :
    (get_historical_rates envFetchFail sYesterdaySnap "USD" "EUR" 7).1.1.length = 0 ∧
    ¬ 1 ≤ (get_historical_rates envFetchFail sYesterdaySnap "USD" "EUR" 7).1.1.length := by
  decide

/-- Claim C3 (amended): for every base, target and days ≥ 1, IF obtaining
today's table succeeds and the target is present in it, the date sequence
returned by `get_historical_rates` has length between 1 and `days`
inclusive, is strictly ascending chronologically, and has today's point
last. -/
theorem series_ascending_and_bounded (env : Env) (s : ConvState)
    (base target : String) (days : Nat) (tbl : RateMap) (s1 : ConvState) (r : ℚ)
    (hdays : 1 ≤ days)
    (hget : get_exchange_rate env s base = .ok (tbl, s1))
    (htgt : tbl target = some r) :
    1 ≤ (get_historical_rates env s base target days).1.1.length ∧
    (get_historical_rates env s base target days).1.1.length ≤ days ∧
    List.Chain' (fun a b : ℤ => a < b) (get_historical_rates env s base target days).1.1 ∧
    (get_historical_rates env s base target days).1.1.getLast? = some env.today := by
  obtain ⟨h1, h2, h3, h4⟩ := histLoop_props env s1 base target (days - 1) 1
  simp only [get_historical_rates, hget, htgt]
  refine ⟨?_, ?_, ?_, ?_⟩
  · simp only [List.length_reverse, List.length_cons]
    omega
  · simp only [List.length_reverse, List.length_cons]
    omega
  · rw [List.chain'_reverse]
    refine List.chain'_cons'.mpr ⟨?_, ?_⟩
    · intro y hy
      have hy2 := h3 y (List.mem_of_mem_head? hy)
      push_cast at hy2
      show y < env.today
      omega
    · exact h4
  · simp [List.getLast?_reverse]

/-- Witness for C3 (amended), at the mock environment: days = 7, the fetch
succeeds with `{"EUR": 0.9}`, and the conclusions hold. -/
theorem series_ascending_and_bounded_witness :
    (1 ≤ 7 ∧
      get_exchange_rate envMock sEmpty "USD" = .ok (tblMock, sAfterMockFetch) ∧
      tblMock "EUR" = some (9 / 10)) ∧
    (1 ≤ (get_historical_rates envMock sEmpty "USD" "EUR" 7).1.1.length ∧
      (get_historical_rates envMock sEmpty "USD" "EUR" 7).1.1.length ≤ 7 ∧
      List.Chain' (fun a b : ℤ => a < b)
        (get_historical_rates envMock sEmpty "USD" "EUR" 7).1.1 ∧
      (get_historical_rates envMock sEmpty "USD" "EUR" 7).1.1.getLast? =
        some envMock.today) :=
  ⟨⟨by omega, rfl, rfl⟩,
   series_ascending_and_bounded envMock sEmpty "USD" "EUR" 7 tblMock
     sAfterMockFetch (9 / 10) (by omega) rfl rfl⟩

/-- Counterexample to claim C2 as stated: with the provider down and a good
prior-day snapshot in the store, `get_historical_rates` does not fail at
all — the `except` swallows the exception and the call returns normally
with two empty lists and an unchanged store. -/
theorem fetch_failure_returns_empty_cex :
    get_historical_rates envFetchFail sYesterdaySnap "USD" "EUR" 7 =
      (([], []), sYesterdaySnap) := rfl

/-- Claim C2 (amended): for every base, target and days, if obtaining today's
rate table fails (`get_exchange_rate` raises; the exception is caught and
printed inside `get_historical_rates`), the call returns two empty
sequences and an unchanged store — in particular no partial series is built
from historical snapshots alone. -/
theorem empty_series_of_get_rates_error (env : Env) (s : ConvState)
    (base target : String) (days : Nat) (e : ConvError)
    (hget : get_exchange_rate env s base = .error e) :
    get_historical_rates env s base target days = (([], []), s) := by
  simp [get_historical_rates, hget]

/-- Witness for C2 (amended): on a fresh store with the provider down, the
fetch raises the wrapped fetch error and the series comes back empty. -/
theorem empty_series_of_get_rates_error_witness :
    get_exchange_rate envFetchFail sEmpty "USD" = .error .fetchError ∧
    get_historical_rates envFetchFail sEmpty "USD" "EUR" 7 = (([], []), sEmpty) :=
  ⟨rfl, empty_series_of_get_rates_error envFetchFail sEmpty "USD" "EUR" 7
    .fetchError rfl⟩

/-- Claim C10: if today's live fetch succeeds but the target is absent from
today's table, `get_historical_rates` returns two empty sequences without
raising and without consulting any snapshot — the prior-day loop sits
inside the `if target_currency in current_rates` block, so snapshots for
prior days are ignored even when they contain the target. -/
theorem series_empty_of_target_missing_today (env : Env) (s : ConvState)
    (base target : String) (days : Nat) (tbl : RateMap) (s1 : ConvState)
    (hget : get_exchange_rate env s base = .ok (tbl, s1))
    (htgt : tbl target = none) :
    get_historical_rates env s base target days = (([], []), s1) := by
  simp [get_historical_rates, hget, htgt]

/-- Witness for C10: today's fetch succeeds with a table lacking `"EUR"`,
yesterday's snapshot contains `"EUR"`, yet the series is empty. -/
theorem series_empty_of_target_missing_today_witness :
    (get_exchange_rate envNoEUR sSnapWithEUR "USD" = .ok (tblNoEUR, sNoEURAfter) ∧
      tblNoEUR "EUR" = none ∧
      sSnapWithEUR.hist "USD" (-1) =
        some (.good fun c => if c = "EUR" then some (1 / 2) else none)) ∧
    get_historical_rates envNoEUR sSnapWithEUR "USD" "EUR" 7 =
      (([], []), sNoEURAfter) :=
  ⟨⟨rfl, rfl, rfl⟩,
   series_empty_of_target_missing_today envNoEUR sSnapWithEUR "USD" "EUR" 7
     tblNoEUR sNoEURAfter rfl rfl⟩

/-- Claim C4: whenever the target is present in the table returned by
`get_exchange_rate`, `convert_currency` returns exactly
`amount * rates[target]`, for every amount — zero and negative amounts
included, since no validation is performed on `amount`. -/
theorem convert_is_multiplication (env : Env) (s : ConvState)
    (base target : String) (amount : ℚ) (tbl : RateMap) (s1 : ConvState) (r : ℚ)
    (hget : get_exchange_rate env s base = .ok (tbl, s1))
    (htgt : tbl target = some r) :
    convert_currency env s base target amount = .ok (amount * r, s1) := by
  simp [convert_currency, hget, htgt]

/-- Witness for C4 with the table mocked to `{"EUR": 0.9}`: converting 100
USD yields exactly 90, and converting 0 yields exactly 0. -/
theorem convert_is_multiplication_witness :
    (get_exchange_rate envMock sEmpty "USD" = .ok (tblMock, sAfterMockFetch) ∧
      tblMock "EUR" = some (9 / 10)) ∧
    convert_currency envMock sEmpty "USD" "EUR" 100 = .ok (90, sAfterMockFetch) ∧
    convert_currency envMock sEmpty "USD" "EUR" 0 = .ok (0, sAfterMockFetch) := by
  refine ⟨⟨rfl, rfl⟩, ?_, ?_⟩
  · have h := convert_is_multiplication envMock sEmpty "USD" "EUR" 100 tblMock
      sAfterMockFetch (9 / 10) rfl rfl
    have e : (100 : ℚ) * (9 / 10) = 90 := by norm_num
    rw [e] at h
    exact h
  · have h := convert_is_multiplication envMock sEmpty "USD" "EUR" 0 tblMock
      sAfterMockFetch (9 / 10) rfl rfl
    have e : (0 : ℚ) * (9 / 10) = 0 := by norm_num
    rw [e] at h
    exact h

/-- `get_exchange_rate` never raises the unknown-currency error: its error
paths are the uncaught OSError on an unreadable cache file and the wrapped
fetch failure. -/
theorem get_exchange_rate_never_unknown (env : Env) (s : ConvState)
    (base t : String) :
    get_exchange_rate env s base ≠ .error (.unknownCurrency t) := by
  have hfs : fetch_and_store env s base ≠ .error (.unknownCurrency t) := by
    unfold fetch_and_store
    split
    · simp
    · split
      · simp
      · simp
  unfold get_exchange_rate
  split
  · simp
  · split
    · split
      · simp
      · exact hfs
    · exact hfs
  · exact hfs
  · exact hfs

/-- Claim C5: `convert_currency` fails with the unknown-currency error for
the target if and only if `get_exchange_rate` succeeds and the target is
absent from the returned table. -/
theorem convert_unknown_iff (env : Env) (s : ConvState) (base target : String)
    (amount : ℚ) :
    convert_currency env s base target amount = .error (.unknownCurrency target) ↔
      ∃ tbl s1, get_exchange_rate env s base = .ok (tbl, s1) ∧ tbl target = none := by
  rcases hg : get_exchange_rate env s base with e | p
  · constructor
    · intro h
      have he : e = .unknownCurrency target := by
        simpa [convert_currency, hg] using h
      subst he
      exact absurd hg (get_exchange_rate_never_unknown env s base target)
    · rintro ⟨tbl, s1, hok, -⟩
      cases hok
  · obtain ⟨tbl, s1⟩ := p
    rcases ht : tbl target with _ | r
    · constructor
      · intro _
        exact ⟨tbl, s1, rfl, ht⟩
      · intro _
        simp [convert_currency, hg, ht]
    · constructor
      · intro h
        simp [convert_currency, hg, ht] at h
      · rintro ⟨tbl2, s2, hok, ht2⟩
        simp only [Except.ok.injEq, Prod.mk.injEq] at hok
        obtain ⟨h1, h2⟩ := hok
        subst h1
        rw [ht] at ht2
        cases ht2

/-- Claim C6: `_store_historical` writes only when no snapshot exists yet for
(base, date): a first write stores the given table, any later write for the
same (base, date) — with any table, at any later clock — is a no-op, and a
write over an already-existing snapshot is a no-op, so the stored snapshot
always equals the table of the first write. -/
theorem store_historical_first_write_wins (env env2 : Env) (s : ConvState)
    (base : String) (d : ℤ) (r1 r2 : RateMap)
    (hd : env.today = d) (hd2 : env2.today = d) :
    (s.hist base d = none →
      (store_historical env s base r1).hist base d = some (.good r1) ∧
      store_historical env2 (store_historical env s base r1) base r2 =
        store_historical env s base r1) ∧
    (∀ h0, s.hist base d = some h0 → store_historical env s base r1 = s) := by
  subst hd
  constructor
  · intro hnone
    have h1 : (store_historical env s base r1).hist base env.today =
        some (.good r1) := by
      simp [store_historical, hnone]
    refine ⟨h1, ?_⟩
    generalize store_historical env s base r1 = s1 at h1 ⊢
    simp [store_historical, hd2, h1]
  · intro h0 hsome
    simp [store_historical, hsome]

/-- Witness for C6: on a fresh store, a first write for ("USD", day 0) stores
the mock table, and a second same-day write with a different table is a
no-op. -/
theorem store_historical_first_write_wins_witness :
    (envMock.today = 0 ∧ envMock.today = 0 ∧ sEmpty.hist "USD" 0 = none) ∧
    ((store_historical envMock sEmpty "USD" tblMock).hist "USD" 0 =
        some (.good tblMock) ∧
      store_historical envMock (store_historical envMock sEmpty "USD" tblMock)
        "USD" tblNoEUR = store_historical envMock sEmpty "USD" tblMock) :=
  ⟨⟨rfl, rfl, rfl⟩,
   (store_historical_first_write_wins envMock envMock sEmpty "USD" 0 tblMock
     tblNoEUR rfl rfl).1 rfl⟩

/-- Counterexample to claim C7 as stated: with the cache file unreadable and
the provider up, `get_exchange_rate` surfaces an uncaught error instead of
treating the cache as empty and falling through to the live fetch — the
`except` clauses catch only `JSONDecodeError` and `KeyError`, not the
OSError from `open`. -/
theorem unreadable_cache_surfaces_error_cex :
    envMock.fetch "USD" = .ok tblMock ∧
    get_exchange_rate envMock sUnreadable "USD" = .error .ioError :=
  ⟨rfl, rfl⟩

/-- Claim C7 (amended): a persisted cache file whose contents fail to decode
as JSON is treated exactly like an absent (empty) cache, by the read path
(`get_exchange_rate`, which falls through to a live fetch) and by the write
path (`_cache_rates`, which restarts from an empty mapping); that decode
error is recovered locally and never surfaced. An unreadable file, by
contrast, raises uncaught (see the counterexample). -/
theorem corrupt_cache_treated_as_absent (env : Env)
    (h : String → ℤ → Option HistFile) (base : String) (rates : RateMap) :
    get_exchange_rate env ⟨.corrupt, h⟩ base =
      get_exchange_rate env ⟨.absent, h⟩ base ∧
    cache_rates env ⟨.corrupt, h⟩ base rates =
      cache_rates env ⟨.absent, h⟩ base rates :=
  ⟨rfl, rfl⟩

/-- Claim C8: `_cache_rates` on a well-formed persisted mapping upserts only
the entry for the given base, stamped with the current clock; the entry of
every other base present in the mapping is unchanged by the write. -/
theorem cache_rates_frame (env : Env) (s : ConvState) (base : String)
    (rates : RateMap) (m : String → Option CacheEntry)
    (hm : s.cacheFile = .wellFormed m) :
    ∃ m2, cache_rates env s base rates =
        .ok { s with cacheFile := .wellFormed m2 } ∧
      m2 base = some ⟨env.now, rates⟩ ∧
      ∀ b, b ≠ base → m2 b = m b := by
  refine ⟨fun b => if b = base then some ⟨env.now, rates⟩ else m b, ?_, ?_, ?_⟩
  · simp [cache_rates, hm]
  · simp
  · intro b hb
    simp [hb]

/-- Witness for C8: writing a new `"USD"` entry into a cache holding entries
for `"USD"` and `"EUR"` leaves the `"EUR"` entry unchanged. -/
theorem cache_rates_frame_witness :
    sTwo.cacheFile = .wellFormed mTwo ∧
    ∃ m2, cache_rates envMock sTwo "USD" tblNoEUR =
        .ok { sTwo with cacheFile := .wellFormed m2 } ∧
      m2 "USD" = some ⟨envMock.now, tblNoEUR⟩ ∧
      ∀ b, b ≠ "USD" → m2 b = mTwo b :=
  ⟨rfl, cache_rates_frame envMock sTwo "USD" tblNoEUR mTwo rfl⟩

/-- Claim C1: whenever the persisted cache file is readable,
`get_exchange_rate` coincides with the spec composition `get_rates_spec`:
it returns the cached table exactly when a fresh-enough entry for the base
exists (`now - timestamp < cache_timeout`), and otherwise fetches from the
provider, writes the rolling cache (`_cache_rates`) and today's snapshot
(`_store_historical`), and returns the fetched table. -/
theorem get_exchange_rate_refines_spec (env : Env) (s : ConvState) (base : String)
    (hreadable : s.cacheFile ≠ .unreadable) :
    get_exchange_rate env s base = get_rates_spec env s base := by
  rcases hc : s.cacheFile with _ | _ | _ | m
  · simp [get_exchange_rate, get_rates_spec, get_cached_spec, fetch_and_store, hc]
  · exact absurd hc hreadable
  · simp [get_exchange_rate, get_rates_spec, get_cached_spec, fetch_and_store, hc]
  · rcases he : m base with _ | e
    · simp [get_exchange_rate, get_rates_spec, get_cached_spec, fetch_and_store,
        hc, he]
    · by_cases hf : env.now - e.timestamp < cache_timeout
      · simp [get_exchange_rate, get_rates_spec, get_cached_spec, hc, he, hf]
      · simp [get_exchange_rate, get_rates_spec, get_cached_spec, fetch_and_store,
          hc, he, hf]

/-- Witness for C1: on the two-entry well-formed cache with a fresh `"USD"`
entry, the code and the spec composition agree. -/
theorem get_exchange_rate_refines_spec_witness :
    sTwo.cacheFile ≠ .unreadable ∧
    get_exchange_rate envMock sTwo "USD" = get_rates_spec envMock sTwo "USD" :=
  ⟨by simp [sTwo], get_exchange_rate_refines_spec envMock sTwo "USD"
    (by simp [sTwo])⟩
